import Mathlib

/-!
Verification of the WhoDat (pydat5-dev backend) core against its
specification.  The development shallowly embeds two source files:

* `pydat/api/controller/v1/query.py` — the `/query` endpoint: raw
  parameter parsing, pagination validation, the backend call, and the
  mapping of backend failures to typed errors.
* `pydat/core/plugins.py` — the plugin registry: the `register`
  decorator validating candidates and mutating the process-wide
  `PLUGINS` list and `USER_PREF` dict.

Machine integers are modelled as `Int`/`Nat` (Python integers are
unbounded, so no overflow modelling is needed); exceptions are modelled
as explicit outcome constructors; the mutable module-level registry is
modelled by explicit state passing.
-/

namespace WhoDat

/-- A raw HTTP parameter value as the Flask handler sees it: either a
string taken from the query string, or the Python boolean default used
when the parameter is absent (`request.args.get("unique", default=False)`
returns the boolean `False` itself when `unique` is missing). -/
inductive RawParam where
  | str (s : String)
  | bool (b : Bool)
deriving DecidableEq, Repr

/-- Python `str()` coercion restricted to the values a raw parameter can
hold: identity on strings, `"True"`/`"False"` on booleans. -/
def pyStr : RawParam → String
  | .str s => s
  | .bool true => "True"
  | .bool false => "False"

/-- Python `str.lower()` (ASCII case folding suffices for the values
compared in the source). -/
def pyLower (s : String) : String := ⟨s.data.map Char.toLower⟩

/-- Strip whitespace from both ends of a character list, as Python
`int()` does before parsing. -/
def trimChars (cs : List Char) : List Char :=
  ((cs.dropWhile Char.isWhitespace).reverse.dropWhile Char.isWhitespace).reverse

/-- Value of a nonempty run of decimal digits; `none` on anything
else. -/
def digitsVal (cs : List Char) : Option Nat :=
  if cs ≠ [] ∧ cs.all Char.isDigit then
    some (cs.foldl (fun a c => 10 * a + (c.toNat - 48)) 0)
  else none

/-- Python `int(s)` on a string: optional surrounding whitespace, an
optional sign, then a nonempty run of decimal digits; any other string
raises `ValueError`, modelled as `none`.  (Underscore digit grouping is
not modelled; no claim touches it.) -/
def pyInt (s : String) : Option Int :=
  match trimChars s.data with
  | [] => none
  | c :: rest =>
    if c = '-' then (digitsVal rest).map (fun n => -(n : Int))
    else if c = '+' then (digitsVal rest).map (fun n => (n : Int))
    else (digitsVal (c :: rest)).map (fun n => (n : Int))

/-- `int(request.args.get("size", default=20))` — query.py line 16:
absent parameter yields the integer default 20, a present string goes
through `int()`. -/
def parseSize : Option String → Option Int
  | none => some 20
  | some s => pyInt s

/-- `int(request.args.get("page", default=1))` — query.py line 17. -/
def parsePage : Option String → Option Int
  | none => some 1
  | some s => pyInt s

/-- Parsing of the `unique` flag, HEAD side of the unresolved merge
conflict in query.py (line 20): `str(unique).lower() == 'true'`.  This
is the side the endpoint model below uses; it is total on every raw
value, string or boolean. -/
def parseUnique (raw : RawParam) : Bool :=
  pyLower (pyStr raw) == "true"

/-- Parsing of the `unique` flag, incoming side of the unresolved merge
conflict in query.py (line 22): `unique.lower() == 'true'`.  On a
non-string raw value (in particular the boolean default `False` used
when the parameter is absent) the attribute access raises
`AttributeError`, which the surrounding `except ValueError` clause does
not catch — modelled as `none`. -/
def parseUniqueIncoming : RawParam → Option Bool
  | .str s => some (pyLower s == "true")
  | .bool _ => none

/-- The raw inputs of one `/query` request: each parameter is `none`
when absent from the query string; `unique` is a `RawParam` because its
default is the boolean `False` rather than a string. -/
structure RawArgs where
  query : Option String
  size : Option String
  page : Option String
  unique : RawParam
deriving DecidableEq, Repr

/-- Modelled from the spec: the opaque search backend
(`pydat.api.utils.es.advanced_search`, whose module is not part of the
sources) either returns a result page carrying a non-negative `total`
and the page's items, or signals its connection-error failure
(`ESConnectionError`, re-exported as `elastic.ConnectionError`). -/
inductive BackendResponse where
  | ok (total : Nat) (items : List String)
  | connError
deriving DecidableEq, Repr

/-- The backend as a function of the endpoint's call arguments
`(query, skip, page_size, unique)` — query.py line 43. -/
abbrev Backend := String → Int → Int → Bool → BackendResponse

/-- The observable outcome of one `/query` request: a success page, a
`ClientError` (4xx) with its message, or a `ServerError` (5xx) with its
message. -/
inductive QueryOutcome where
  | ok (total : Nat) (items : List String)
  | clientError (msg : String)
  | serverError (msg : String)
deriving DecidableEq, Repr

/-- `ceil(total / page_size)` — query.py line 47; only reached with
`page_size ≥ 1` (guarded at line 34), where the floating-point ceiling
of the true quotient equals `(total + pageSize - 1) / pageSize` in
exact arithmetic. -/
def ceilPages (total : Nat) (pageSize : Int) : Int :=
  ((total + pageSize.toNat - 1) / pageSize.toNat : Nat)

/-- The `/query` endpoint, query.py lines 13-50, statement for
statement.  The `try` block parses `size` and `page` with `int()` and
the `unique` flag (HEAD side of the merge conflict), mapping
`ValueError` to a `ClientError`; then the missing-query check, the
page-size and page-number bounds (in that order, `elif`), the backend
call with `skip = (page_num - 1) * page_size`, the mapping of the
connection error to a `ServerError`, and the post-hoc page bound
check. -/
def queryEndpoint (args : RawArgs) (backend : Backend) : QueryOutcome :=
  match parseSize args.size, parsePage args.page with
  | some pageSize, some pageNum =>
    let uniq := parseUnique args.unique
    match args.query with
    | none => .clientError "Query required"
    | some q =>
      if pageSize < 1 then
        .clientError ("Invalid page size " ++ toString pageSize ++ " provided")
      else if pageNum < 1 then
        .clientError ("Invalid page number " ++ toString pageNum)
      else
        let skip := (pageNum - 1) * pageSize
        match backend q skip pageSize uniq with
        | .connError => .serverError "Search failed to connect"
        | .ok total items =>
          if pageNum > ceilPages total pageSize then
            .clientError ("Page number " ++ toString pageNum ++ " is too high")
          else
            .ok total items
  | _, _ => .clientError "Input paramaters are of the wrong type"

/-- A plugin's user-preference payload (`user_pref`): a dict mapping
parameter names to value-type descriptions (plugins.py line 18). -/
abbrev Prefs := List (String × String)

/-- What a candidate's `blueprint()` method does when invoked: return an
actual flask `Blueprint`, return some other value, or — the `PluginBase`
default, plugins.py lines 26-29 — raise `NotImplementedError`. -/
inductive BlueprintResult where
  | blueprint (bpName : String)
  | nonBlueprint (desc : String)
  | notImplementedError
deriving DecidableEq, Repr

/-- A `PluginBase` instance: its `name`, its optional `user_pref` dict
(`None` modelled as `none`), and the behaviour of its `blueprint()`
method. -/
structure Plugin where
  name : String
  user_pref : Option Prefs
  blueprintResult : BlueprintResult
deriving DecidableEq, Repr

/-- A value a plugin factory may return: a `PluginBase` instance, or any
other Python value (described by `str(type(v))`, which is all the
registration code observes of it). -/
inductive PyValue where
  | plugin (p : Plugin)
  | other (typeDesc : String)
deriving DecidableEq, Repr

/-- The process-wide registry state: the module-level `PLUGINS` list and
`USER_PREF` dict of plugins.py (lines 8 and 10).  The dict is modelled
as an insertion-ordered association list with at most one entry per
key. -/
structure RegistryState where
  PLUGINS : List Plugin
  USER_PREF : List (String × Prefs)
deriving DecidableEq, Repr

/-- Both module-level globals start empty (plugins.py lines 8, 10). -/
def initialState : RegistryState := ⟨[], []⟩

/-- Python dict assignment `d[k] = v`: replace the value in place when
the key is present (keeping its insertion position), append a new entry
otherwise. -/
def dictSet : List (String × Prefs) → String → Prefs → List (String × Prefs)
  | [], k, v => [(k, v)]
  | (k2, v2) :: rest, k, v =>
    if k2 = k then (k, v) :: rest else (k2, v2) :: dictSet rest k v

/-- Python dict lookup `d.get(k)`. -/
def dictLookup : List (String × Prefs) → String → Option Prefs
  | [], _ => none
  | (k2, v2) :: rest, k => if k2 = k then some v2 else dictLookup rest k

/-- Number of entries of the dict model holding key `k`. -/
def countKey (d : List (String × Prefs)) (k : String) : Nat :=
  (d.filter (fun kv => kv.1 == k)).length

/-- What one call of a `register`-wrapped factory does: return the
plugin, or raise `TypeError` (with its message) or
`NotImplementedError`. -/
inductive RegOutcome where
  | ok (p : Plugin)
  | typeError (msg : String)
  | notImplementedError
deriving DecidableEq, Repr

/-- The message of plugins.py line 74-75:
`'Cannot register plugin: wrong type {}'.format(type(plugin))`. -/
def wrongTypeMsg (typeDesc : String) : String :=
  "Cannot register plugin: wrong type " ++ typeDesc

/-- The message of plugins.py line 78. -/
def blueprintMsg : String := "Cannot register plugin, must return a blueprint"

/-- One invocation of the `wrapped` function produced by the `register`
decorator (plugins.py lines 71-83), applied to the value the wrapped
factory returned.  The `isinstance(plugin, PluginBase)` check comes
first; then `plugin.blueprint()` is invoked and its result checked
against `Blueprint`; only then are `PLUGINS` and (when `user_pref` is
not `None`) `USER_PREF` mutated.  The returned state is the state after
the call: unchanged whenever an exception is raised, since both raises
precede the first mutation. -/
def registerCall (st : RegistryState) (candidate : PyValue) :
    RegOutcome × RegistryState :=
  match candidate with
  | .other typeDesc => (.typeError (wrongTypeMsg typeDesc), st)
  | .plugin p =>
    match p.blueprintResult with
    | .notImplementedError => (.notImplementedError, st)
    | .nonBlueprint _ => (.typeError blueprintMsg, st)
    | .blueprint _ =>
      (.ok p,
        { PLUGINS := st.PLUGINS ++ [p],
          USER_PREF :=
            match p.user_pref with
            | none => st.USER_PREF
            | some v => dictSet st.USER_PREF p.name v })

/-- The state after a sequence of registration calls. -/
def runCalls (st : RegistryState) : List PyValue → RegistryState
  | [] => st
  | c :: cs => runCalls (registerCall st c).2 cs

/-- A plugin passes contract validation exactly when its `blueprint()`
returns an actual `Blueprint`. -/
def validPluginB (p : Plugin) : Bool :=
  match p.blueprintResult with
  | .blueprint _ => true
  | _ => false

/-- The registry invariant of the spec: every registered plugin passed
contract validation, and every `USER_PREF` key is the name of some
registered plugin. -/
def registryInvariant (st : RegistryState) : Prop :=
  (∀ p ∈ st.PLUGINS, validPluginB p = true) ∧
  (∀ kv ∈ st.USER_PREF, ∃ p, p ∈ st.PLUGINS ∧ p.name = kv.1)

/-- The dict model is a dict: at most one entry per key. -/
def dictOK (d : List (String × Prefs)) : Prop :=
  ∀ k, countKey d k ≤ 1

/-! Claim theorems about the `/query` endpoint. -/

/-- C1 (counterexample): a request with `pageNumber = 1` and
`pageSize = 20` (the defaults) over a backend reporting `total = 0`
does fail the post-hoc page-bound check — the code computes
`ceil(0 / 20) = 0` and `1 > 0`, raising `ClientError` instead of
returning a success page. -/
theorem page_one_total_zero_rejected :
    queryEndpoint ⟨some "x", none, none, .bool false⟩ (fun _ _ _ _ => .ok 0 [])
      = .clientError "Page number 1 is too high" ∧
    queryEndpoint ⟨some "x", none, none, .bool false⟩ (fun _ _ _ _ => .ok 0 [])
      ≠ .ok 0 [] := by
  exact ⟨rfl, by decide⟩

/-- C1 (amended): for every query with `pageSize ≥ 1`, a request with
`pageNumber = 1` passes the page-bound check and returns the backend
page whenever the backend-reported `total` is at least 1; when
`total = 0`, even `pageNumber = 1` fails the check with `ClientError`
"Page number 1 is too high". -/
theorem page_bound_first_page (args : RawArgs) (q : String) (pageSize : Int)
    (total : Nat) (items : List String) (backend : Backend)
    (hq : args.query = some q)
    (hs : parseSize args.size = some pageSize)
    (hp : parsePage args.page = some 1)
    (h1 : 1 ≤ pageSize)
    (hb : backend q 0 pageSize (parseUnique args.unique) = .ok total items) :
    (1 ≤ total → queryEndpoint args backend = .ok total items) ∧
    (total = 0 → queryEndpoint args backend =
        .clientError "Page number 1 is too high") := by
  have hb2 : backend q (((1 : Int) - 1) * pageSize) pageSize
      (parseUnique args.unique) = .ok total items := by
    have h0 : ((1 : Int) - 1) * pageSize = 0 := by ring
    rw [h0]; exact hb
  constructor
  · intro htot
    unfold queryEndpoint
    rw [hs, hp, hq]
    simp only []
    rw [if_neg (by omega), if_neg (by omega), hb2]
    have hle : ¬ ((1 : Int) > ceilPages total pageSize) := by
      have hpos : 0 < pageSize.toNat := by omega
      have hdiv : 1 ≤ (total + pageSize.toNat - 1) / pageSize.toNat :=
        (Nat.le_div_iff_mul_le hpos).mpr (by omega)
      simp only [ceilPages, gt_iff_lt, not_lt]
      exact_mod_cast hdiv
    simp [hle]
  · intro htot
    subst htot
    unfold queryEndpoint
    rw [hs, hp, hq]
    simp only []
    rw [if_neg (by omega), if_neg (by omega), hb2]
    have hzero : ceilPages 0 pageSize = 0 := by
      have hs1 : 1 ≤ pageSize.toNat := by omega
      simp only [ceilPages]
      rw [Nat.div_eq_of_lt (by omega)]
      rfl
    simp only [hzero]
    rfl

/-- Witness for the amended C1: the first page of a 35-result search
succeeds; the first page of an empty search is rejected. -/
theorem page_bound_first_page_witness :
    queryEndpoint ⟨some "x", none, none, .bool false⟩
      (fun _ _ _ _ => .ok 35 ["a"]) = .ok 35 ["a"] ∧
    queryEndpoint ⟨some "x", none, none, .bool false⟩
      (fun _ _ _ _ => .ok 0 []) = .clientError "Page number 1 is too high" :=
  ⟨(page_bound_first_page ⟨some "x", none, none, .bool false⟩ "x" 20 35 ["a"]
      (fun _ _ _ _ => .ok 35 ["a"]) rfl rfl rfl (by decide) rfl).1 (by decide),
   (page_bound_first_page ⟨some "x", none, none, .bool false⟩ "x" 20 0 []
      (fun _ _ _ _ => .ok 0 []) rfl rfl rfl (by decide) rfl).2 rfl⟩

/-- C2 (counterexample): with `query` absent and the non-integer
`size=abc`, the endpoint raises the wrong-type `ClientError` of the
`except ValueError` handler, not the query-required one — the `try`
block parses `size` and `page` before the missing-query check runs. -/
theorem missing_query_bad_size_message :
    queryEndpoint ⟨none, some "abc", none, .bool false⟩
      (fun _ _ _ _ => .ok 0 [])
      = .clientError "Input paramaters are of the wrong type" ∧
    "Input paramaters are of the wrong type" ≠ "Query required" := by
  exact ⟨rfl, by decide⟩

/-- C2 (amended): a request whose `query` parameter is absent always
fails with `ClientError`; the message is "Query required" exactly when
`size` and `page` both parse as integers (whatever the `unique` value),
and the wrong-type message otherwise. -/
theorem missing_query_error_message (s p : Option String) (u : RawParam)
    (backend : Backend) :
    queryEndpoint ⟨none, s, p, u⟩ backend =
      .clientError (if (parseSize s).isSome && (parsePage p).isSome
        then "Query required"
        else "Input paramaters are of the wrong type") := by
  unfold queryEndpoint
  cases hs : parseSize s with
  | none => simp [hs]
  | some a =>
    cases hp : parsePage p with
    | none => simp [hs, hp]
    | some b => simp [hs, hp]

/-- C3: evaluation of the two sides of the unresolved merge conflict in
query.py lines 19-23 on non-string raw `unique` values.  The HEAD side
(`str(unique).lower()`) maps the boolean default `False` to false and a
boolean `True` to true as the claim requires; the incoming side
(`unique.lower()`) raises an uncaught `AttributeError` (modelled as
`none`) on every boolean — in particular on the default taken by every
request that omits the parameter. -/
theorem unique_merge_conflict_eval :
    parseUnique (.bool false) = false ∧
    parseUnique (.bool true) = true ∧
    parseUniqueIncoming (.bool false) = none ∧
    parseUniqueIncoming (.bool true) = none ∧
    parseUniqueIncoming (.str "true") = some true := by
  decide

/-- C6: the parsed `uniqueOnly` flag is true exactly when the raw value
coerced to a string compares case-insensitively equal to "true"; in
particular "true", "TRUE", "True" map to true, while "false", the empty
string and the boolean default of an absent parameter map to false. -/
theorem unique_flag_semantics :
    (∀ raw : RawParam, parseUnique raw = true ↔ pyLower (pyStr raw) = "true") ∧
    parseUnique (.str "true") = true ∧
    parseUnique (.str "TRUE") = true ∧
    parseUnique (.str "True") = true ∧
    parseUnique (.str "false") = false ∧
    parseUnique (.str "") = false ∧
    parseUnique (.bool false) = false := by
  refine ⟨fun raw => ?_, by decide, by decide, by decide, by decide,
    by decide, by decide⟩
  simp [parseUnique]

/-- Witness for C6 at the concrete raw value "TRUE". -/
theorem unique_flag_semantics_witness :
    parseUnique (.str "TRUE") = true :=
  (unique_flag_semantics.1 (.str "TRUE")).mpr (by decide)

/-- C7: for every valid query (text present, `pageSize ≥ 1`,
`pageNumber ≥ 1`) and every backend-reported `total`, a `pageNumber`
strictly greater than `ceil(total / pageSize)` makes the endpoint raise
`ClientError` with the page-number-too-high message instead of
returning the backend's result page. -/
theorem page_above_bound_client_error (args : RawArgs) (q : String)
    (pageSize pageNum : Int) (total : Nat) (items : List String)
    (backend : Backend)
    (hq : args.query = some q)
    (hs : parseSize args.size = some pageSize)
    (hp : parsePage args.page = some pageNum)
    (h1 : 1 ≤ pageSize) (h2 : 1 ≤ pageNum)
    (hb : backend q ((pageNum - 1) * pageSize) pageSize
        (parseUnique args.unique) = .ok total items)
    (hgt : pageNum > ceilPages total pageSize) :
    queryEndpoint args backend =
      .clientError ("Page number " ++ toString pageNum ++ " is too high") := by
  unfold queryEndpoint
  rw [hs, hp, hq]
  simp only []
  rw [if_neg (by omega), if_neg (by omega), hb]
  simp [hgt]

/-- Witness for C7: page 2 of an empty search is rejected. -/
theorem page_above_bound_client_error_witness :
    queryEndpoint ⟨some "x", none, some "2", .str ""⟩
      (fun _ _ _ _ => .ok 0 []) = .clientError "Page number 2 is too high" := by
  rw [page_above_bound_client_error ⟨some "x", none, some "2", .str ""⟩ "x" 20 2
    0 [] (fun _ _ _ _ => .ok 0 []) rfl rfl rfl (by decide) (by decide) rfl
    (by decide)]
  decide

/-- C8: whenever the backend call signals its connection-error failure,
every request that reaches the call raises `ServerError` with message
"Search failed to connect" — never a success page, never a client
error. -/
theorem conn_error_maps_server_error (args : RawArgs) (q : String)
    (pageSize pageNum : Int) (backend : Backend)
    (hq : args.query = some q)
    (hs : parseSize args.size = some pageSize)
    (hp : parsePage args.page = some pageNum)
    (h1 : 1 ≤ pageSize) (h2 : 1 ≤ pageNum)
    (hb : backend q ((pageNum - 1) * pageSize) pageSize
        (parseUnique args.unique) = .connError) :
    queryEndpoint args backend = .serverError "Search failed to connect" := by
  unfold queryEndpoint
  rw [hs, hp, hq]
  simp only []
  rw [if_neg (by omega), if_neg (by omega), hb]

/-- Witness for C8: a default request over an unreachable backend. -/
theorem conn_error_maps_server_error_witness :
    queryEndpoint ⟨some "x", none, none, .bool false⟩
      (fun _ _ _ _ => .connError) = .serverError "Search failed to connect" :=
  conn_error_maps_server_error ⟨some "x", none, none, .bool false⟩ "x" 20 1
    (fun _ _ _ _ => .connError) rfl rfl rfl (by decide) (by decide) rfl

/-! Helper lemmas about the dict model. -/

theorem dictLookup_dictSet_self (d : List (String × Prefs)) (k : String) (v : Prefs) :
    dictLookup (dictSet d k v) k = some v := by
  induction d with
  | nil => simp [dictSet, dictLookup]
  | cons hd tl ih =>
    obtain ⟨k2, v2⟩ := hd
    by_cases hk : k2 = k
    · simp [dictSet, hk, dictLookup]
    · simp [dictSet, hk, dictLookup, ih]

theorem mem_dictSet (d : List (String × Prefs)) (k : String) (v : Prefs)
    (kv : String × Prefs) (h : kv ∈ dictSet d k v) : kv = (k, v) ∨ kv ∈ d := by
  induction d with
  | nil => simp [dictSet] at h; simp [h]
  | cons hd tl ih =>
    obtain ⟨k2, v2⟩ := hd
    by_cases hk : k2 = k
    · simp [dictSet, hk] at h
      rcases h with h | h
      · left; simp [h]
      · right; simp [h]
    · simp [dictSet, hk] at h
      rcases h with h | h
      · right; simp [h]
      · rcases ih h with h2 | h2
        · left; exact h2
        · right; simp [h2]

theorem countKey_nil (k : String) : countKey [] k = 0 := rfl

theorem countKey_cons (kv : String × Prefs) (d : List (String × Prefs)) (k : String) :
    countKey (kv :: d) k =
      (if kv.1 == k then 1 else 0) + countKey d k := by
  by_cases h : kv.1 == k
  · simp [countKey, List.filter, h]; omega
  · simp [countKey, List.filter, h]

theorem countKey_dictSet_self (d : List (String × Prefs)) (k : String) (v : Prefs)
    (h : countKey d k ≤ 1) : countKey (dictSet d k v) k = 1 := by
  induction d with
  | nil => simp [dictSet, countKey_cons, countKey_nil]
  | cons hd tl ih =>
    obtain ⟨k2, v2⟩ := hd
    by_cases hk : k2 = k
    · subst hk
      rw [countKey_cons] at h
      simp at h
      have h0 : countKey tl k2 = 0 := by omega
      simp [dictSet, countKey_cons, h0]
    · rw [countKey_cons] at h
      have hk2 : (k2 == k) = false := by simp [hk]
      rw [hk2] at h
      simp at h
      simp [dictSet, hk, countKey_cons, hk2, ih h]

theorem countKey_dictSet_ne (d : List (String × Prefs)) (k a : String) (v : Prefs)
    (h : a ≠ k) : countKey (dictSet d k v) a = countKey d a := by
  induction d with
  | nil =>
    have hka : (k == a) = false := by simp; intro h2; exact h h2.symm
    simp [dictSet, countKey_cons, countKey_nil, hka]
  | cons hd tl ih =>
    obtain ⟨k2, v2⟩ := hd
    by_cases hk : k2 = k
    · subst hk
      have hka : (k2 == a) = false := by simp; intro h2; exact h h2.symm
      simp [dictSet, countKey_cons, hka]
    · simp [dictSet, hk, countKey_cons, ih]

theorem dictOK_dictSet (d : List (String × Prefs)) (k : String) (v : Prefs)
    (h : dictOK d) : dictOK (dictSet d k v) := by
  intro a
  by_cases ha : a = k
  · subst ha
    rw [countKey_dictSet_self d a v (h a)]
  · rw [countKey_dictSet_ne d k a v ha]
    exact h a

/-! Preservation lemmas for single registration calls and call sequences. -/

theorem registerCall_preserves_invariant (st : RegistryState) (c : PyValue)
    (h : registryInvariant st) : registryInvariant (registerCall st c).2 := by
  obtain ⟨h1, h2⟩ := h
  cases c with
  | other d => exact ⟨h1, h2⟩
  | plugin p =>
    cases hbp : p.blueprintResult with
    | notImplementedError => simp [registerCall, hbp]; exact ⟨h1, h2⟩
    | nonBlueprint v => simp [registerCall, hbp]; exact ⟨h1, h2⟩
    | blueprint b =>
      constructor
      · intro q hq
        simp [registerCall, hbp] at hq
        rcases hq with hq | hq
        · exact h1 q hq
        · subst hq; simp [validPluginB, hbp]
      · intro kv hkv
        cases hup : p.user_pref with
        | none =>
          simp [registerCall, hbp, hup] at hkv
          obtain ⟨q, hq1, hq2⟩ := h2 kv hkv
          exact ⟨q, by simp [registerCall, hbp, hup, hq1], hq2⟩
        | some v =>
          simp [registerCall, hbp, hup] at hkv
          rcases mem_dictSet st.USER_PREF p.name v kv hkv with hc | hc
          · refine ⟨p, by simp [registerCall, hbp, hup], ?_⟩
            simp [hc]
          · obtain ⟨q, hq1, hq2⟩ := h2 kv hc
            exact ⟨q, by simp [registerCall, hbp, hup, hq1], hq2⟩

theorem registerCall_preserves_dictOK (st : RegistryState) (c : PyValue)
    (h : dictOK st.USER_PREF) : dictOK (registerCall st c).2.USER_PREF := by
  cases c with
  | other d => exact h
  | plugin p =>
    cases hbp : p.blueprintResult with
    | notImplementedError => simpa [registerCall, hbp] using h
    | nonBlueprint v => simpa [registerCall, hbp] using h
    | blueprint b =>
      cases hup : p.user_pref with
      | none => simpa [registerCall, hbp, hup] using h
      | some v =>
        simp [registerCall, hbp, hup]
        exact dictOK_dictSet st.USER_PREF p.name v h

theorem runCalls_preserves_invariant (cs : List PyValue) (st : RegistryState)
    (h : registryInvariant st) : registryInvariant (runCalls st cs) := by
  induction cs generalizing st with
  | nil => exact h
  | cons c cs ih =>
    exact ih (registerCall st c).2 (registerCall_preserves_invariant st c h)

theorem runCalls_preserves_dictOK (cs : List PyValue) (st : RegistryState)
    (h : dictOK st.USER_PREF) : dictOK (runCalls st cs).USER_PREF := by
  induction cs generalizing st with
  | nil => exact h
  | cons c cs ih =>
    exact ih (registerCall st c).2 (registerCall_preserves_dictOK st c h)

theorem initialState_invariant : registryInvariant initialState := by
  constructor
  · intro p hp; simp [initialState] at hp
  · intro kv hkv; simp [initialState] at hkv

theorem initialState_dictOK : dictOK initialState.USER_PREF := by
  intro k; simp [initialState, countKey_nil]

theorem wrongTypeMsg_ne_blueprintMsg (typeDesc : String) :
    wrongTypeMsg typeDesc ≠ blueprintMsg := by
  intro h
  have h1 := congrArg String.data h
  simp only [wrongTypeMsg, String.data_append] at h1
  have h2 := congrArg (fun l => l.take 23) h1
  simp only at h2
  rw [List.take_append_of_le_length (by decide)] at h2
  exact absurd h2 (by decide)

/-- C4: for every factory result that fails validation — either it is
not a `PluginBase` instance, or its `blueprint()` result is not a
`Blueprint` — the registration call raises a `TypeError`-class failure
(a distinct message for each of the two checks, the instance check
coming first since a non-instance is rejected before `blueprint()` is
ever consulted), and both `PLUGINS` and `USER_PREF` are exactly as they
were before the call. -/
theorem register_invalid_candidate (st : RegistryState) :
    (∀ typeDesc, registerCall st (.other typeDesc) =
        (.typeError (wrongTypeMsg typeDesc), st)) ∧
    (∀ p desc, p.blueprintResult = .nonBlueprint desc →
        registerCall st (.plugin p) = (.typeError blueprintMsg, st)) ∧
    (∀ typeDesc, wrongTypeMsg typeDesc ≠ blueprintMsg) := by
  refine ⟨fun typeDesc => rfl, fun p desc h => ?_,
    fun typeDesc => wrongTypeMsg_ne_blueprintMsg typeDesc⟩
  simp [registerCall, h]

/-- Witness for C4 at a concrete registry state and concrete invalid
candidates. -/
theorem register_invalid_candidate_witness :
    registerCall initialState (.other "class int") =
      (.typeError (wrongTypeMsg "class int"), initialState) ∧
    registerCall initialState (.plugin ⟨"bad", none, .nonBlueprint "str"⟩) =
      (.typeError blueprintMsg, initialState) ∧
    wrongTypeMsg "class int" ≠ blueprintMsg :=
  ⟨(register_invalid_candidate initialState).1 "class int",
   (register_invalid_candidate initialState).2.1
     ⟨"bad", none, .nonBlueprint "str"⟩ "str" rfl,
   (register_invalid_candidate initialState).2.2 "class int"⟩

/-- C5: after every sequence of registration calls starting from the
empty registry — whether the individual calls succeed or fail — every
entry of `PLUGINS` passed contract validation (its `blueprint()` returns
an actual `Blueprint`), and every key of `USER_PREF` is the name of some
plugin in `PLUGINS`. -/
theorem registry_invariant_all_sequences (cs : List PyValue) :
    registryInvariant (runCalls initialState cs) :=
  runCalls_preserves_invariant cs initialState initialState_invariant

/-- C9: after a successful registration (the candidate is a plugin whose
`blueprint()` returns a `Blueprint`), the call returns the plugin; if
its preferences are non-null, `USER_PREF` maps its name to exactly those
preferences; if its preferences are null and no entry existed for its
name before, `USER_PREF` still has no entry for that name. -/
theorem register_prefs_mapping (st : RegistryState) (p : Plugin) (b : String)
    (hb : p.blueprintResult = .blueprint b) :
    (registerCall st (.plugin p)).1 = .ok p ∧
    (∀ v, p.user_pref = some v →
        dictLookup (registerCall st (.plugin p)).2.USER_PREF p.name = some v) ∧
    (p.user_pref = none → dictLookup st.USER_PREF p.name = none →
        dictLookup (registerCall st (.plugin p)).2.USER_PREF p.name = none) := by
  refine ⟨by simp [registerCall, hb], fun v hv => ?_, fun hv hnone => ?_⟩
  · simp [registerCall, hb, hv]
    exact dictLookup_dictSet_self st.USER_PREF p.name v
  · simp [registerCall, hb, hv]
    exact hnone

/-- Witness for C9 at the empty registry with one concrete plugin
carrying preferences and one without. -/
theorem register_prefs_mapping_witness :
    dictLookup (registerCall initialState
        (.plugin ⟨"hello", some [("color", "str")], .blueprint "bp"⟩)).2.USER_PREF
        "hello" = some [("color", "str")] ∧
    dictLookup (registerCall initialState
        (.plugin ⟨"quiet", none, .blueprint "bp"⟩)).2.USER_PREF
        "quiet" = none :=
  ⟨(register_prefs_mapping initialState
      ⟨"hello", some [("color", "str")], .blueprint "bp"⟩ "bp" rfl).2.1
      [("color", "str")] rfl,
   (register_prefs_mapping initialState
      ⟨"quiet", none, .blueprint "bp"⟩ "bp" rfl).2.2 rfl rfl⟩

/-- C10: starting from any state reachable by registration calls,
successfully registering two distinct valid plugins that share one name,
both with non-null preferences, appends both to `PLUGINS` in
registration order (length grows by two), while `USER_PREF` ends up with
exactly one entry under the shared name, holding the later plugin's
preferences — the later registration silently overwrites the earlier
one's preferences. -/
theorem duplicate_name_overwrites_prefs (cs : List PyValue) (p1 p2 : Plugin)
    (n : String) (v1 v2 : Prefs) (b1 b2 : String)
    (_hne : p1 ≠ p2)
    (hb1 : p1.blueprintResult = .blueprint b1)
    (hb2 : p2.blueprintResult = .blueprint b2)
    (hn1 : p1.name = n) (hn2 : p2.name = n)
    (hv1 : p1.user_pref = some v1) (hv2 : p2.user_pref = some v2) :
    (registerCall (runCalls initialState cs) (.plugin p1)).1 = .ok p1 ∧
    (registerCall (registerCall (runCalls initialState cs) (.plugin p1)).2
        (.plugin p2)).1 = .ok p2 ∧
    (registerCall (registerCall (runCalls initialState cs) (.plugin p1)).2
        (.plugin p2)).2.PLUGINS
      = (runCalls initialState cs).PLUGINS ++ [p1, p2] ∧
    countKey (registerCall (registerCall (runCalls initialState cs)
        (.plugin p1)).2 (.plugin p2)).2.USER_PREF n = 1 ∧
    dictLookup (registerCall (registerCall (runCalls initialState cs)
        (.plugin p1)).2 (.plugin p2)).2.USER_PREF n = some v2 := by
  have hOK : dictOK (runCalls initialState cs).USER_PREF :=
    runCalls_preserves_dictOK cs initialState initialState_dictOK
  refine ⟨by simp [registerCall, hb1], by simp [registerCall, hb1, hb2], ?_, ?_, ?_⟩
  · simp [registerCall, hb1, hb2, hv1, hv2]
  · simp only [registerCall, hb1, hb2, hv1, hv2, hn1, hn2]
    exact countKey_dictSet_self _ n v2
      (le_of_eq (countKey_dictSet_self _ n v1 (hOK n)))
  · simp only [registerCall, hb1, hb2, hv1, hv2, hn1, hn2]
    exact dictLookup_dictSet_self _ n v2

/-- Witness for C10: two concrete distinct plugins named `whois`
registered into the empty registry. -/
theorem duplicate_name_overwrites_prefs_witness :
    (Plugin.mk "whois" (some [("a", "int")]) (.blueprint "bp1") ≠
      Plugin.mk "whois" (some [("b", "str")]) (.blueprint "bp2")) ∧
    ((registerCall (registerCall (runCalls initialState [])
        (.plugin ⟨"whois", some [("a", "int")], .blueprint "bp1"⟩)).2
        (.plugin ⟨"whois", some [("b", "str")], .blueprint "bp2"⟩)).2.PLUGINS
      = (runCalls initialState []).PLUGINS ++
        [⟨"whois", some [("a", "int")], .blueprint "bp1"⟩,
         ⟨"whois", some [("b", "str")], .blueprint "bp2"⟩] ∧
    countKey (registerCall (registerCall (runCalls initialState [])
        (.plugin ⟨"whois", some [("a", "int")], .blueprint "bp1"⟩)).2
        (.plugin ⟨"whois", some [("b", "str")], .blueprint "bp2"⟩)).2.USER_PREF
        "whois" = 1 ∧
    dictLookup (registerCall (registerCall (runCalls initialState [])
        (.plugin ⟨"whois", some [("a", "int")], .blueprint "bp1"⟩)).2
        (.plugin ⟨"whois", some [("b", "str")], .blueprint "bp2"⟩)).2.USER_PREF
        "whois" = some [("b", "str")]) :=
  ⟨by decide,
   ⟨(duplicate_name_overwrites_prefs [] ⟨"whois", some [("a", "int")], .blueprint "bp1"⟩
      ⟨"whois", some [("b", "str")], .blueprint "bp2"⟩ "whois"
      [("a", "int")] [("b", "str")] "bp1" "bp2"
      (by decide) rfl rfl rfl rfl rfl rfl).2.2.1,
    (duplicate_name_overwrites_prefs [] ⟨"whois", some [("a", "int")], .blueprint "bp1"⟩
      ⟨"whois", some [("b", "str")], .blueprint "bp2"⟩ "whois"
      [("a", "int")] [("b", "str")] "bp1" "bp2"
      (by decide) rfl rfl rfl rfl rfl rfl).2.2.2.1,
    (duplicate_name_overwrites_prefs [] ⟨"whois", some [("a", "int")], .blueprint "bp1"⟩
      ⟨"whois", some [("b", "str")], .blueprint "bp2"⟩ "whois"
      [("a", "int")] [("b", "str")] "bp1" "bp2"
      (by decide) rfl rfl rfl rfl rfl rfl).2.2.2.2⟩⟩

end WhoDat
